import Mathlib

/-!
Shallow embedding of the stm32_i2s driver crate (src/lib.rs, src/driver.rs).

Machine integers (`u32`, `u8`) are modelled as `Nat` with explicit
reduction modulo `2 ^ 32` (resp. `2 ^ 8`) at the points where the Rust
code can wrap or truncate.  A Rust `panic!` (including division by zero
and the `todo!` macro) is modelled as `Option.none`.
-/

namespace StmI2s

/-- Modulus of the Rust `u32` type. -/
def U32 : Nat := 2 ^ 32

/-- Role marker values (`enum SlaveOrMaster` in driver.rs). -/
inductive SlaveOrMaster
  | Slave
  | Master
deriving DecidableEq

/-- Direction marker values (`enum TransmitOrReceive` in driver.rs). -/
inductive TransmitOrReceive
  | Transmit
  | Receive
deriving DecidableEq

/-- Sampling-frequency specification (`enum Frequency` in driver.rs).
`Prescaler` carries the `odd` bit and the `u8` divider. -/
inductive Frequency
  | Prescaler (odd : Bool) (div : Nat)
  | Request (freq : Nat)
  | Require (freq : Nat)
deriving DecidableEq

/-- I2s standard selection (`enum I2sStandard` in driver.rs). -/
inductive I2sStandard
  | Philips
  | Msb
  | Lsb
  | PcmShortSync
  | PcmLongSync
deriving DecidableEq

/-- Steady state clock polarity (`enum ClockPolarity` in driver.rs). -/
inductive ClockPolarity
  | IdleLow
  | IdleHigh
deriving DecidableEq

/-- Data and channel length (`enum DataFormat` in driver.rs). -/
inductive DataFormat
  | Data16Channel16
  | Data16Channel32
  | Data24Channel32
  | Data32Channel32
deriving DecidableEq

/-- Configuration record (`struct I2sDriverConfig<MS, TR>` in driver.rs);
the phantom type-state parameters are erased, the runtime fields kept. -/
structure I2sDriverConfig where
  slave_or_master : SlaveOrMaster
  transmit_or_receive : TransmitOrReceive
  standard : I2sStandard
  clock_polarity : ClockPolarity
  data_format : DataFormat
  master_clock : Bool
  frequency : Frequency
deriving DecidableEq

/-- Translation of `I2sDriverConfig::new_slave` in driver.rs. -/
def new_slave : I2sDriverConfig :=
  { slave_or_master := SlaveOrMaster.Slave
    transmit_or_receive := TransmitOrReceive.Transmit
    standard := I2sStandard.Philips
    clock_polarity := ClockPolarity.IdleLow
    data_format := DataFormat.Data16Channel16
    master_clock := false
    frequency := Frequency.Prescaler false 2 }

/-- Translation of `I2sDriverConfig::new_master` in driver.rs. -/
def new_master : I2sDriverConfig :=
  { slave_or_master := SlaveOrMaster.Master
    transmit_or_receive := TransmitOrReceive.Transmit
    standard := I2sStandard.Philips
    clock_polarity := ClockPolarity.IdleLow
    data_format := DataFormat.Data16Channel16
    master_clock := false
    frequency := Frequency.Prescaler false 2 }

/-- Translation of `div_round` in driver.rs: `(n + (d >> 1)) / d` on `u32`,
so the addition wraps modulo `2 ^ 32`.  Callers guarantee `d` is nonzero
(a zero `d` panics in Rust and is handled at the call sites below). -/
def div_round (n d : Nat) : Nat :=
  ((n + d / 2) % U32) / d

/-- Translation of `_coef` in driver.rs. -/
def _coef (mclk : Bool) (data_format : DataFormat) : Nat :=
  if mclk then 256
  else
    match data_format with
    | DataFormat.Data16Channel16 => 32
    | _ => 64

/-- Translation of `_set_request_frequency` in driver.rs.  The returned
pair is the `(odd, div)` value handed to `_set_prescaler`.  The `u32`
product `coef * request_freq` wraps modulo `2 ^ 32`; when it wraps to
zero the division in `div_round` panics, modelled as `none`.  The
`as u8` cast of `division >> 1` is the `% 2 ^ 8` reduction. -/
def _set_request_frequency (i2s_clock request_freq : Nat) (mclk : Bool)
    (data_format : DataFormat) : Option (Bool × Nat) :=
  let d := (_coef mclk data_format * request_freq) % U32
  if d = 0 then none
  else
    let division := div_round i2s_clock d
    if division < 4 then some (false, 2)
    else if division > 511 then some (true, 255)
    else some (decide (division % 2 = 1), division / 2 % 2 ^ 8)

/-- Translation of `_set_require_frequency` in driver.rs, kept faithful
to the source: both `division` and `rem` are computed as the quotient
`i2s_clock / (coef * request_freq)` (the source reuses the division
expression where a remainder was evidently intended).  `none` models the
`panic!` branch, and also the division-by-zero panic when the `u32`
product wraps to zero. -/
def _set_require_frequency (i2s_clock request_freq : Nat) (mclk : Bool)
    (data_format : DataFormat) : Option (Bool × Nat) :=
  let c := (_coef mclk data_format * request_freq) % U32
  if c = 0 then none
  else
    let division := i2s_clock / c
    let rem := i2s_clock / c
    if rem = 0 ∧ 4 ≤ division ∧ division ≤ 511 then
      some (decide (division % 2 = 1), division / 2 % 2 ^ 8)
    else none

/-- Modelled from the spec (section 4.3 and 8): nearest integer to the
rational `n / d`, ties (exact halves) rounded up.  This is the
comparison target for the refinement claim about `div_round`; it is not
translated from the source. -/
def round_nearest_ties_up (n d : Nat) : Nat :=
  if 2 * (n % d) < d then n / d else n / d + 1

/-- Translation of `I2sDriverConfig::transmit` in driver.rs. -/
def transmit (c : I2sDriverConfig) : I2sDriverConfig :=
  { c with transmit_or_receive := TransmitOrReceive.Transmit }

/-- Translation of `I2sDriverConfig::receive` in driver.rs. -/
def receive (c : I2sDriverConfig) : I2sDriverConfig :=
  { c with transmit_or_receive := TransmitOrReceive.Receive }

/-- Translation of `I2sDriverConfig::standard` in driver.rs. -/
def standard (c : I2sDriverConfig) (s : I2sStandard) : I2sDriverConfig :=
  { c with standard := s }

/-- Translation of `I2sDriverConfig::clock_polarity` in driver.rs. -/
def clock_polarity (c : I2sDriverConfig) (p : ClockPolarity) : I2sDriverConfig :=
  { c with clock_polarity := p }

/-- Translation of `I2sDriverConfig::data_format` in driver.rs. -/
def data_format (c : I2sDriverConfig) (f : DataFormat) : I2sDriverConfig :=
  { c with data_format := f }

/-- Translation of `I2sDriverConfig::to_slave` in driver.rs: keeps
direction, standard, clock polarity and data format, forces the role to
`Slave`, disables the master clock and resets the frequency spec to
`Prescaler(false, 0b10)`. -/
def to_slave (c : I2sDriverConfig) : I2sDriverConfig :=
  { slave_or_master := SlaveOrMaster.Slave
    transmit_or_receive := c.transmit_or_receive
    standard := c.standard
    clock_polarity := c.clock_polarity
    data_format := c.data_format
    master_clock := false
    frequency := Frequency.Prescaler false 2 }

/-- Translation of `I2sDriverConfig::to_master` in driver.rs: keeps every
carried field and forces the role to `Master`. -/
def to_master (c : I2sDriverConfig) : I2sDriverConfig :=
  { slave_or_master := SlaveOrMaster.Master
    transmit_or_receive := c.transmit_or_receive
    standard := c.standard
    clock_polarity := c.clock_polarity
    data_format := c.data_format
    master_clock := c.master_clock
    frequency := c.frequency }

/-- Translation of `I2sDriverConfig::master_clock` in driver.rs
(available only on `Master` configurations; the type-state restriction
is erased here). -/
def master_clock (c : I2sDriverConfig) (enable : Bool) : I2sDriverConfig :=
  { c with master_clock := enable }

/-- Translation of `I2sDriverConfig::prescaler` in driver.rs.  The
method panics when `div < 2` (modelled as `none`) and otherwise stores
`Frequency::Prescaler(odd, div)`.  It is a pure function on the
configuration value: no register event type appears anywhere in the
builder layer of this embedding, mirroring that the Rust builder never
touches hardware. -/
def prescaler (c : I2sDriverConfig) (odd : Bool) (div : Nat) :
    Option I2sDriverConfig :=
  if div < 2 then none
  else some { c with frequency := Frequency.Prescaler odd div }

/-- Translation of `I2sDriverConfig::request_frequency` in driver.rs. -/
def request_frequency (c : I2sDriverConfig) (freq : Nat) : I2sDriverConfig :=
  { c with frequency := Frequency.Request freq }

/-- Translation of `I2sDriverConfig::require_frequency` in driver.rs. -/
def require_frequency (c : I2sDriverConfig) (freq : Nat) : I2sDriverConfig :=
  { c with frequency := Frequency.Require freq }

/-- DATLEN field values written by `i2s_driver` in driver.rs. -/
inductive Datlen
  | SixteenBit
  | TwentyFourBit
  | ThirtyTwoBit
deriving DecidableEq

/-- DATLEN value chosen by the `data_format` match in `i2s_driver`. -/
def datlenOf : DataFormat → Datlen
  | DataFormat.Data16Channel16 => Datlen.SixteenBit
  | DataFormat.Data16Channel32 => Datlen.SixteenBit
  | DataFormat.Data24Channel32 => Datlen.TwentyFourBit
  | DataFormat.Data32Channel32 => Datlen.ThirtyTwoBit

/-- CHLEN bit chosen by the `data_format` match in `i2s_driver`
(`false` = 16-bit channel, `true` = 32-bit channel). -/
def chlenOf : DataFormat → Bool
  | DataFormat.Data16Channel16 => false
  | DataFormat.Data16Channel32 => true
  | DataFormat.Data24Channel32 => true
  | DataFormat.Data32Channel32 => true

/-- Value written to the I2SCFGR register by `i2s_driver` in driver.rs:
I2SMOD bit, I2SCFG role/direction field, I2SSTD/PCMSYNC selection, and
DATLEN/CHLEN from the data format. -/
structure CfgrVal where
  i2smod : Bool
  i2scfg : SlaveOrMaster × TransmitOrReceive
  i2sstd : I2sStandard
  datlen : Datlen
  chlen : Bool
deriving DecidableEq

/-- Value written to the I2SPR register by `i2s_driver` in driver.rs:
MCKOE bit, ODD bit and I2SDIV field. -/
structure PrVal where
  mckoe : Bool
  odd : Bool
  i2sdiv : Nat
deriving DecidableEq

/-- One register access performed during driver construction. -/
inductive RegEvent
  | resetCR1
  | resetCR2
  | writeI2SCFGR (v : CfgrVal)
  | writeI2SPR (v : PrVal)
deriving DecidableEq

/-- The `(odd, div)` prescaler pair determined by the `frequency` match
inside the I2SPR write of `i2s_driver` in driver.rs; `none` models the
panic of `_set_require_frequency` (and the wrap-to-zero division panic
of either frequency computation). -/
def computeFrequency (c : I2sDriverConfig) (i2s_clock : Nat) :
    Option (Bool × Nat) :=
  match c.frequency with
  | Frequency.Prescaler odd div => some (odd, div)
  | Frequency.Request freq =>
      _set_request_frequency i2s_clock freq c.master_clock c.data_format
  | Frequency.Require freq =>
      _set_require_frequency i2s_clock freq c.master_clock c.data_format

/-- Register-access trace of `I2sDriverConfig::i2s_driver` in driver.rs:
reset CR1, reset CR2, write I2SCFGR, then write I2SPR.  When the
frequency computation panics, the panic happens inside the I2SPR write
closure, before the single register store the closure produces, so the
trace ends after the I2SCFGR write.  `I2sDriver::new` delegates to this
same function. -/
def i2s_driver_trace (c : I2sDriverConfig) (i2s_clock : Nat) : List RegEvent :=
  [RegEvent.resetCR1, RegEvent.resetCR2,
   RegEvent.writeI2SCFGR
     { i2smod := true
       i2scfg := (c.slave_or_master, c.transmit_or_receive)
       i2sstd := c.standard
       datlen := datlenOf c.data_format
       chlen := chlenOf c.data_format }] ++
  (match computeFrequency c i2s_clock with
   | some (odd, div) =>
       [RegEvent.writeI2SPR { mckoe := c.master_clock, odd := odd, i2sdiv := div }]
   | none => [])

/-- Observable contents of the I2SCFGR and I2SPR registers (`none` =
never written since reset). -/
structure RegState where
  cfgr : Option CfgrVal
  pr : Option PrVal
deriving DecidableEq

/-- Register state before construction. -/
def initRegState : RegState :=
  { cfgr := none, pr := none }

/-- Effect of one construction event on the observable register state. -/
def applyEvent (s : RegState) : RegEvent → RegState
  | RegEvent.resetCR1 => s
  | RegEvent.resetCR2 => s
  | RegEvent.writeI2SCFGR v => { s with cfgr := some v }
  | RegEvent.writeI2SPR v => { s with pr := some v }

/-- Replay a construction trace over a register state. -/
def applyTrace (s : RegState) (t : List RegEvent) : RegState :=
  t.foldl applyEvent s

/-- Translation of `I2sDriver::sample_rate` in driver.rs, as a function
of the register fields it reads (MCKOE, ODD, I2SDIV, CHLEN) and of the
peripheral clock returned by `i2s_freq()`. -/
def sample_rate (mckoe odd : Bool) (i2sdiv : Nat) (chlen : Bool)
    (i2s_freq : Nat) : Nat :=
  if mckoe then
    i2s_freq / (256 * (2 * i2sdiv + cond odd 1 0))
  else
    match chlen with
    | false => i2s_freq / ((16 * 2) * (2 * i2sdiv + cond odd 1 0))
    | true => i2s_freq / ((32 * 2) * (2 * i2sdiv + cond odd 1 0))

/-- The `sample_rate` method reading the registers left by a
construction trace: `none` when a register it needs was never written. -/
def sampleRateOfState (s : RegState) (i2s_freq : Nat) : Option Nat :=
  match s.pr, s.cfgr with
  | some p, some c => some (sample_rate p.mckoe p.odd p.i2sdiv c.chlen i2s_freq)
  | _, _ => none

/-- The channel associated with a sample (`enum Channel`). -/
inductive Channel
  | Left
  | Right
deriving DecidableEq

/-- Bits of the SR status register copied into a status snapshot. -/
structure SrVal where
  bsy : Bool
  chside : Bool
  fre : Bool
  ovr : Bool
  rxne : Bool
  txe : Bool
  udr : Bool
deriving DecidableEq

/-- Translation of `Status::chside` in driver.rs: matches on the CHSIDE
bit of the copied status register, `false` giving `Left` and `true`
giving `Right`. -/
def statusChside (v : SrVal) : Channel :=
  match v.chside with
  | false => Channel.Left
  | true => Channel.Right

/-- Translation of `Status::chside` in lib.rs, kept faithful to the
source: the body matches on `self.value.udr().bit()`, the UDR bit, not
the CHSIDE bit. -/
def libStatusChside (v : SrVal) : Channel :=
  match v.udr with
  | false => Channel.Left
  | true => Channel.Right

/-- Names of the status-flag accessor methods. -/
inductive Flag
  | bsy
  | chside
  | fre
  | ovr
  | rxne
  | txe
  | udr
deriving DecidableEq

/-- Which accessor methods the `impl` blocks of `Status<MS, TR>` in
driver.rs define for a given mode instantiation: `bsy` and `chside` on
`Status<MS, TR>`, `fre` on `Status<Slave, TR>`, `ovr` and `rxne` on
`Status<MS, Receive>`, `txe` on `Status<MS, Transmit>`, `udr` on
`Status<Slave, Transmit>`. -/
def statusHasAccessor (ms : SlaveOrMaster) (tr : TransmitOrReceive) :
    Flag → Bool
  | Flag.bsy => true
  | Flag.chside => true
  | Flag.fre => ms = SlaveOrMaster.Slave
  | Flag.ovr => tr = TransmitOrReceive.Receive
  | Flag.rxne => tr = TransmitOrReceive.Receive
  | Flag.txe => tr = TransmitOrReceive.Transmit
  | Flag.udr => ms = SlaveOrMaster.Slave && tr = TransmitOrReceive.Transmit

/-- Which accessor methods the single `impl Status` block in lib.rs
defines: all seven, with no mode parameter at all, so they are callable
on a snapshot from a driver in any mode. -/
def libStatusHasAccessor : Flag → Bool := fun _ => true

/-- Modelled from the spec (section 4.5 and the claim): the hardware
precondition each flag accessor is supposed to be gated by.  Comparison
target for the refinement claim about accessor availability; not
translated from the source. -/
def flagPrecondition (ms : SlaveOrMaster) (tr : TransmitOrReceive) :
    Flag → Bool
  | Flag.bsy => true
  | Flag.chside => true
  | Flag.fre => ms = SlaveOrMaster.Slave
  | Flag.ovr => tr = TransmitOrReceive.Receive
  | Flag.rxne => tr = TransmitOrReceive.Receive
  | Flag.txe => tr = TransmitOrReceive.Transmit
  | Flag.udr => ms = SlaveOrMaster.Slave && tr = TransmitOrReceive.Transmit

/-- Configuration record of `struct Config<MS>` in lib.rs (phantom role
parameter erased): it carries only the role and the direction. -/
structure LibConfig where
  slave_or_master : SlaveOrMaster
  transmit_or_receive : TransmitOrReceive
deriving DecidableEq

/-- Translation of `Config::new_slave` in lib.rs. -/
def libNewSlave : LibConfig :=
  { slave_or_master := SlaveOrMaster.Slave
    transmit_or_receive := TransmitOrReceive.Transmit }

/-- Translation of `Config::new_master` in lib.rs. -/
def libNewMaster : LibConfig :=
  { slave_or_master := SlaveOrMaster.Master
    transmit_or_receive := TransmitOrReceive.Transmit }

/-- Register-access trace of `Config::i2s_driver` in lib.rs: it resets
CR1 only, then writes the I2SMOD bit and the I2SCFG role/direction field
of I2SCFGR; no other register is touched.  The I2SSTD, DATLEN and CHLEN
fields are left at the register reset values chosen by the `write`
method, recorded here as the Philips / sixteen-bit / 16-bit-channel
defaults of a zeroed I2SCFGR. -/
def libI2sDriverTrace (c : LibConfig) : List RegEvent :=
  [RegEvent.resetCR1,
   RegEvent.writeI2SCFGR
     { i2smod := true
       i2scfg := (c.slave_or_master, c.transmit_or_receive)
       i2sstd := I2sStandard.Philips
       datlen := Datlen.SixteenBit
       chlen := false }]

/-- Translation of `I2sDriver::ws_is_high` in lib.rs: the body is
`todo!()`, an unconditional panic, independent of any driver or pin
state; modelled as `none` for every status-register state. -/
def libWsIsHigh (_v : SrVal) : Option Bool := none

/-- Translation of `I2sDriver::ws_is_low` in lib.rs: the body is
`todo!()`, an unconditional panic, independent of any driver or pin
state; modelled as `none` for every status-register state. -/
def libWsIsLow (_v : SrVal) : Option Bool := none

/-- Round-half-up division characterised through quotient and remainder:
`(n + d / 2) / d` rounds `n / d` to the nearest integer, ties up. -/
theorem add_half_div (n d : Nat) (hd : 0 < d) :
    (n + d / 2) / d = if 2 * (n % d) < d then n / d else n / d + 1 := by
  obtain ⟨q, r, hrd, rfl⟩ : ∃ q r, r < d ∧ n = d * q + r :=
    ⟨n / d, n % d, Nat.mod_lt n hd, (Nat.div_add_mod n d).symm⟩
  have hmod : (d * q + r) % d = r := by
    rw [Nat.mul_add_mod, Nat.mod_eq_of_lt hrd]
  have hdiv : (d * q + r) / d = q := by
    rw [Nat.mul_add_div hd, Nat.div_eq_of_lt hrd, Nat.add_zero]
  rw [hmod, hdiv]
  have hsplit : d * q + r + d / 2 = (r + d / 2) + q * d := by ring
  rw [hsplit, Nat.add_mul_div_right _ _ hd]
  by_cases hc : 2 * r < d
  · rw [if_pos hc, Nat.div_eq_of_lt (by omega), Nat.zero_add]
  · rw [if_neg hc]
    have h1 : (r + d / 2) / d = 1 :=
      Nat.div_eq_of_lt_le (by omega) (by omega)
    rw [h1]
    omega

/-- The nearest-ties-up rounding of `n / d` is the unique integer `k`
with `n / d - 1 / 2 < k ≤ n / d + 1 / 2`, stated over the integers
scaled by `2 * d`. -/
theorem round_characterization (n d : Nat) (hd : 0 < d) :
    2 * d * round_nearest_ties_up n d ≤ 2 * n + d ∧
    2 * n + d < 2 * d * round_nearest_ties_up n d + 2 * d := by
  obtain ⟨q, r, hrd, rfl⟩ : ∃ q r, r < d ∧ n = d * q + r :=
    ⟨n / d, n % d, Nat.mod_lt n hd, (Nat.div_add_mod n d).symm⟩
  have hmod : (d * q + r) % d = r := by
    rw [Nat.mul_add_mod, Nat.mod_eq_of_lt hrd]
  have hdiv : (d * q + r) / d = q := by
    rw [Nat.mul_add_div hd, Nat.div_eq_of_lt hrd, Nat.add_zero]
  unfold round_nearest_ties_up
  rw [hmod, hdiv]
  by_cases hc : 2 * r < d
  · rw [if_pos hc]
    constructor
    · nlinarith
    · nlinarith
  · rw [if_neg hc]
    constructor
    · nlinarith
    · nlinarith

/-- Claim C4: for every `n` and `d` with `d > 0` and `n + d / 2` in the
`u32` range, `div_round n d` is the nearest integer to the rational
`n / d` with ties (exact halves) rounded up: it equals the spec-side
`round_nearest_ties_up`, and it is the unique integer in the half-open
nearest-ties-up window around `n / d`. -/
theorem div_round_correct (n d : Nat) (hd : 0 < d) (hov : n + d / 2 < U32) :
    div_round n d = round_nearest_ties_up n d ∧
    2 * d * div_round n d ≤ 2 * n + d ∧
    2 * n + d < 2 * d * div_round n d + 2 * d := by
  have hrn : div_round n d = round_nearest_ties_up n d := by
    unfold div_round round_nearest_ties_up
    rw [Nat.mod_eq_of_lt hov, add_half_div n d hd]
  refine ⟨hrn, ?_, ?_⟩
  · rw [hrn]
    exact (round_characterization n d hd).1
  · rw [hrn]
    exact (round_characterization n d hd).2

/-- Witness for C4 at the tie `7 / 2 = 3.5`, which rounds up to `4`. -/
theorem div_round_correct_witness :
    div_round 7 2 = round_nearest_ties_up 7 2 ∧
    2 * 2 * div_round 7 2 ≤ 2 * 7 + 2 ∧
    2 * 7 + 2 < 2 * 2 * div_round 7 2 + 2 * 2 :=
  div_round_correct 7 2 (by decide) (by decide)

/-- Claim C1: `_set_require_frequency` computes `rem` as a second copy
of the quotient `i2s_clock / (coef * freq)` instead of the remainder, so
its success condition `rem == 0 && division >= 4` is unsatisfiable and
the function reaches the `panic!` branch on every input, including
inputs where the division is exact and the quotient lies in `[4, 511]`.
This contradicts the claim (and the method documentation in the
source), which promise success exactly on those inputs. -/
theorem require_frequency_always_panics (i2s_clock freq : Nat) (mclk : Bool)
    (fmt : DataFormat) :
    _set_require_frequency i2s_clock freq mclk fmt = none := by
  unfold _set_require_frequency
  dsimp only
  split
  · rfl
  · split
    · next h =>
      obtain ⟨h0, h4, _⟩ := h
      rw [h0] at h4
      exact absurd h4 (by omega)
    · rfl

/-- Claim C2 (amended): whenever the `u32` product `coef * freq` does
not reduce to zero modulo `2 ^ 32`, `_set_request_frequency` reaches no
panic and the `(odd, div)` pair it writes satisfies
`4 ≤ 2 * div + odd ≤ 511`. -/
theorem request_frequency_in_range (i2s_clock freq : Nat) (mclk : Bool)
    (fmt : DataFormat) (h : (_coef mclk fmt * freq) % U32 ≠ 0) :
    ∃ odd div,
      _set_request_frequency i2s_clock freq mclk fmt = some (odd, div) ∧
      4 ≤ 2 * div + cond odd 1 0 ∧ 2 * div + cond odd 1 0 ≤ 511 := by
  unfold _set_request_frequency
  dsimp only
  rw [if_neg h]
  generalize div_round i2s_clock (_coef mclk fmt * freq % U32) = q
  by_cases h4 : q < 4
  · rw [if_pos h4]
    exact ⟨false, 2, rfl, by decide, by decide⟩
  · rw [if_neg h4]
    by_cases h511 : q > 511
    · rw [if_pos h511]
      exact ⟨true, 255, rfl, by decide, by decide⟩
    · rw [if_neg h511]
      have hq2 : q / 2 % 2 ^ 8 = q / 2 := Nat.mod_eq_of_lt (by omega)
      have he : (cond (decide (q % 2 = 1)) 1 0 : Nat) = q % 2 := by
        by_cases hm : q % 2 = 1
        · rw [hm]
          decide
        · have hm0 : q % 2 = 0 := by omega
          rw [hm0]
          decide
      refine ⟨_, _, rfl, ?_, ?_⟩ <;> rw [hq2, he] <;> omega

/-- Witness for C2 at the 48 kHz request of the documented scenario,
where `coef * freq = 12_288_000` is nonzero modulo `2 ^ 32`. -/
theorem request_frequency_in_range_witness :
    ∃ odd div,
      _set_request_frequency 48000000 48000 true DataFormat.Data16Channel16 =
        some (odd, div) ∧
      4 ≤ 2 * div + cond odd 1 0 ∧ 2 * div + cond odd 1 0 ≤ 511 :=
  request_frequency_in_range 48000000 48000 true DataFormat.Data16Channel16
    (by decide)

/-- Counterexample for C2 as stated: at the positive request
`freq = 16_777_216` with the master clock enabled, `coef * freq` is
`256 * 16_777_216 = 2 ^ 32`, which wraps to `0` in `u32`; `div_round`
then divides by zero and construction panics instead of always
succeeding. -/
theorem request_frequency_panic_at_wrap :
    _set_request_frequency 48000000 16777216 true DataFormat.Data16Channel16 =
      none := by
  decide

/-- Claim C3: in the scenario `i2s_clock = 48_000_000`, master clock
enabled, 16-bit data on a 16-bit channel, `request_frequency(48_000)`:
the coefficient is `256`, the rounded division is `4`, the construction
trace leaves `(mckoe = true, odd = false, div = 2)` in the prescaler
register, and `sample_rate()` read back from the written registers is
exactly `46_875` Hz. -/
theorem request_48k_scenario :
    _coef true DataFormat.Data16Channel16 = 256 ∧
    div_round 48000000 (256 * 48000) = 4 ∧
    (applyTrace initRegState
        (i2s_driver_trace (request_frequency (master_clock new_master true) 48000)
          48000000)).pr =
      some { mckoe := true, odd := false, i2sdiv := 2 } ∧
    sampleRateOfState
        (applyTrace initRegState
          (i2s_driver_trace (request_frequency (master_clock new_master true) 48000)
            48000000))
        48000000 =
      some 46875 := by
  decide

/-- Claim C5 (amended): for the construction entry points of driver.rs
(`I2sDriverConfig::i2s_driver`, and `I2sDriver::new` which delegates to
it), whenever the frequency computation succeeds the register accesses
are exactly: reset CR1, reset CR2, write the configuration register
with role/direction, standard and data format, then write the prescaler
register with the master-clock-enable bit and the prescaler — in that
order and touching no other register.  The `Config::i2s_driver` entry
point of lib.rs instead resets only CR1 and writes only the
configuration register. -/
theorem construction_trace (c : I2sDriverConfig) (i2s_clock : Nat)
    (odd : Bool) (div : Nat)
    (h : computeFrequency c i2s_clock = some (odd, div)) :
    i2s_driver_trace c i2s_clock =
      [RegEvent.resetCR1, RegEvent.resetCR2,
       RegEvent.writeI2SCFGR
         { i2smod := true
           i2scfg := (c.slave_or_master, c.transmit_or_receive)
           i2sstd := c.standard
           datlen := datlenOf c.data_format
           chlen := chlenOf c.data_format },
       RegEvent.writeI2SPR
         { mckoe := c.master_clock, odd := odd, i2sdiv := div }] ∧
    (∀ lc : LibConfig,
      libI2sDriverTrace lc =
        [RegEvent.resetCR1,
         RegEvent.writeI2SCFGR
           { i2smod := true
             i2scfg := (lc.slave_or_master, lc.transmit_or_receive)
             i2sstd := I2sStandard.Philips
             datlen := Datlen.SixteenBit
             chlen := false }]) := by
  constructor
  · unfold i2s_driver_trace
    rw [h]
    rfl
  · intro lc
    rfl

/-- Witness for C5 at the default master configuration, whose
`Prescaler(false, 2)` frequency computation succeeds on any clock. -/
theorem construction_trace_witness :
    i2s_driver_trace new_master 0 =
      [RegEvent.resetCR1, RegEvent.resetCR2,
       RegEvent.writeI2SCFGR
         { i2smod := true
           i2scfg := (new_master.slave_or_master, new_master.transmit_or_receive)
           i2sstd := new_master.standard
           datlen := datlenOf new_master.data_format
           chlen := chlenOf new_master.data_format },
       RegEvent.writeI2SPR
         { mckoe := new_master.master_clock, odd := false, i2sdiv := 2 }] ∧
    (∀ lc : LibConfig,
      libI2sDriverTrace lc =
        [RegEvent.resetCR1,
         RegEvent.writeI2SCFGR
           { i2smod := true
             i2scfg := (lc.slave_or_master, lc.transmit_or_receive)
             i2sstd := I2sStandard.Philips
             datlen := Datlen.SixteenBit
             chlen := false }]) :=
  construction_trace new_master 0 false 2 (by decide)

/-- Counterexample for C5 as stated: the lib.rs construction entry point
`Config::i2s_driver` never resets CR2, so the claimed reset-then-write
sequence does not hold for every entry point in the source. -/
theorem lib_construction_skips_cr2_reset :
    RegEvent.resetCR2 ∉ libI2sDriverTrace libNewMaster := by
  decide

/-- Claim C6 (amended): for the mode-tagged `Status<MS, TR>` of
driver.rs an accessor is defined exactly when the mode satisfies the
flag's hardware precondition — `bsy` and `chside` always, `fre` only
for Slave, `ovr` and `rxne` only for Receive, `txe` only for Transmit,
`udr` only for Slave+Transmit; the untagged `Status` of lib.rs defines
all seven accessors regardless of mode. -/
theorem status_accessor_gating :
    (∀ (ms : SlaveOrMaster) (tr : TransmitOrReceive) (f : Flag),
      statusHasAccessor ms tr f = flagPrecondition ms tr f) ∧
    (∀ f : Flag, libStatusHasAccessor f = true) := by
  constructor
  · intro ms tr f
    cases ms <;> cases tr <;> cases f <;> rfl
  · intro f
    rfl

/-- Counterexample for C6 as stated: a snapshot produced through the
lib.rs driver in Master/Transmit mode exposes the frame-error accessor
even though the frame-error precondition (Slave) is not met. -/
theorem lib_status_fre_unguarded :
    libStatusHasAccessor Flag.fre = true ∧
    flagPrecondition SlaveOrMaster.Master TransmitOrReceive.Transmit Flag.fre =
      false := by
  decide

/-- Claim C7: `to_slave` yields a Slave configuration with the master
clock disabled and the default `Prescaler(false, 2)` frequency spec
while preserving direction, standard, clock polarity and data format;
`to_master` yields a Master configuration preserving every other
field. -/
theorem to_slave_to_master_fields (c : I2sDriverConfig) :
    (to_slave c).slave_or_master = SlaveOrMaster.Slave ∧
    (to_slave c).master_clock = false ∧
    (to_slave c).frequency = Frequency.Prescaler false 2 ∧
    (to_slave c).transmit_or_receive = c.transmit_or_receive ∧
    (to_slave c).standard = c.standard ∧
    (to_slave c).clock_polarity = c.clock_polarity ∧
    (to_slave c).data_format = c.data_format ∧
    (to_master c).slave_or_master = SlaveOrMaster.Master ∧
    (to_master c).transmit_or_receive = c.transmit_or_receive ∧
    (to_master c).standard = c.standard ∧
    (to_master c).clock_polarity = c.clock_polarity ∧
    (to_master c).data_format = c.data_format ∧
    (to_master c).master_clock = c.master_clock ∧
    (to_master c).frequency = c.frequency :=
  ⟨rfl, rfl, rfl, rfl, rfl, rfl, rfl, rfl, rfl, rfl, rfl, rfl, rfl, rfl⟩

/-- Claim C8: `prescaler(odd, div)` panics exactly when `div < 2` and
otherwise stores `Prescaler(odd, div)` unchanged, leaving every other
configuration field as it was; the builder is a pure function on
configuration values and performs no register access. -/
theorem prescaler_behavior (c : I2sDriverConfig) (odd : Bool) (div : Nat)
    (hu8 : div < 2 ^ 8) :
    (div < 2 → prescaler c odd div = none) ∧
    (2 ≤ div →
      prescaler c odd div =
        some { c with frequency := Frequency.Prescaler odd div }) := by
  constructor
  · intro h
    unfold prescaler
    rw [if_pos h]
  · intro h
    unfold prescaler
    rw [if_neg (by omega)]

/-- Witness for C8: `div = 1` panics, `div = 5` stores the pair. -/
theorem prescaler_behavior_witness :
    prescaler new_master false 1 = none ∧
    prescaler new_master true 5 =
      some { new_master with frequency := Frequency.Prescaler true 5 } :=
  ⟨(prescaler_behavior new_master false 1 (by decide)).1 (by decide),
   (prescaler_behavior new_master true 5 (by decide)).2 (by decide)⟩

/-- Claim C9: at a status-register value whose CHSIDE bit is clear and
whose UDR bit is set, the driver.rs `chside()` returns `Left` as the
claim requires, but the lib.rs `chside()` — whose body reads the UDR
bit — returns `Right`, contradicting the claim and its own
documentation. -/
theorem lib_chside_reads_udr_bit :
    libStatusChside
        { bsy := false, chside := false, fre := false, ovr := false,
          rxne := false, txe := false, udr := true } =
      Channel.Right ∧
    statusChside
        { bsy := false, chside := false, fre := false, ovr := false,
          rxne := false, txe := false, udr := true } =
      Channel.Left :=
  ⟨rfl, rfl⟩

/-- Claim C10: both WS-line accessors of the lib.rs driver are
`todo!()` bodies, so every call panics regardless of driver state. -/
theorem ws_accessors_always_panic (v : SrVal) :
    libWsIsHigh v = none ∧ libWsIsLow v = none :=
  ⟨rfl, rfl⟩

end StmI2s
